import Mathlib

/-!
Verification of the paladin UART-to-MQTT bridge.

The development shallowly embeds the Python sources, faithful at the ASCII
wire-format level described by the specification (one newline-terminated
ASCII line of comma-separated tokens):

- paladin.py and all_in_one-paladin.py share the decoder parse_uart_data,
  which strips the line, splits on commas, parses each token with
  float(x) if x.replace(Chr46, Empty, 1).isdigit() else None, and returns
  the list only when it has exactly 20 entries.
- Numeric values are modelled exactly, as rationals: every token accepted
  by the digit test is a plain decimal literal, so its mathematical value
  is a rational number.
- The publish step of the main loop, the discovery-payload builders of
  both scripts, the time-sync payload of all_in_one-paladin.py, and the
  fault-handling main loop of all_in_one-paladin.py are embedded below
  next to the claims that need them.
-/

/-- Whitespace characters removed by Python str.strip at the ASCII level:
space, tab, newline, carriage return, vertical tab, form feed. -/
def pyIsSpace (c : Char) : Bool :=
  c = ' ' || c = '\t' || c = '\n' || c = '\r' || c = '\x0b' || c = '\x0c'

/-- Python data.strip: drop whitespace from both ends. -/
def pyStrip (l : List Char) : List Char :=
  ((l.dropWhile pyIsSpace).reverse.dropWhile pyIsSpace).reverse

/-- Python data.split on a comma: split into the (never empty) list of
tokens between commas; the empty input yields one empty token. -/
def splitComma : List Char → List (List Char)
  | [] => [[]]
  | c :: rest =>
    if c = ',' then [] :: splitComma rest
    else
      match splitComma rest with
      | [] => [[c]]
      | t :: ts => (c :: t) :: ts

/-- Python x.replace(Chr46, Empty, 1): remove the first decimal point, if any. -/
def removeFirstDot : List Char → List Char
  | [] => []
  | c :: rest => if c = '.' then rest else c :: removeFirstDot rest

/-- Python s.isdigit at the ASCII level: nonempty and all characters digits. -/
def pyIsDigit (l : List Char) : Bool :=
  !l.isEmpty && l.all Char.isDigit

/-- Value of a list of ASCII digits read as a decimal natural number. -/
def natOfDigits (l : List Char) : Nat :=
  l.foldl (fun acc c => acc * 10 + (c.toNat - 48)) 0

/-- Exact value of Python float(x) on a token that passed the digit test:
digits around at most one decimal point, read as a decimal. -/
def parseDecimal (l : List Char) : ℚ :=
  let intPart := l.takeWhile (fun c => c ≠ '.')
  match l.dropWhile (fun c => c ≠ '.') with
  | [] => (natOfDigits intPart : ℚ)
  | _ :: frac => (natOfDigits intPart : ℚ) + (natOfDigits frac : ℚ) / 10 ^ frac.length

/-- One token of the comprehension in parse_uart_data:
float(x) if x.replace(Chr46, Empty, 1).isdigit() else None. -/
def parseToken (t : List Char) : Option ℚ :=
  if pyIsDigit (removeFirstDot t) then some (parseDecimal t) else none

/-- The token list parse_uart_data works on: data.strip().split(Chr44). -/
def tokens (data : String) : List (List Char) :=
  splitComma (pyStrip data.toList)

/-- parse_uart_data from paladin.py lines 31-42 (identical in
all_in_one-paladin.py lines 64-77): map parseToken over the tokens and
return the list only when it has exactly 20 entries, otherwise None.
The except ValueError branch of the source is unreachable at the ASCII
wire-format level, because every token passing the digit test is a plain
decimal literal that float converts; the embedding is total accordingly. -/
def parse_uart_data (data : String) : Option (List (Option ℚ)) :=
  let values := (tokens data).map parseToken
  if values.length = 20 then some values else none

/-- Sensor names, identical in both scripts. -/
def SENSOR_NAMES : List String :=
  ["mains_watts", "transfer_watts", "sensor_2", "water_temp", "delta_t",
   "min_temp", "max_temp", "grid_in", "grid_out", "transfer", "top_up",
   "sensor_11", "hhours", "inverter_status", "charger_control",
   "solar_export_flag", "export_limit", "allow_import_flag", "offset_flag",
   "time_hack"]

/-- The configured MQTT topic root, identical in both scripts. -/
def MQTT_TOPIC_PREFIX : String := "homeassistant/sensor/paladin"

/-- Topic used by send_to_mqtt for one sensor. -/
def mqttTopic (sensor : String) : String :=
  MQTT_TOPIC_PREFIX ++ "/" ++ sensor

/-- The publish loop of main, walking the sensor names in order and
publishing each slot whose value is not None; the walk stops with the
shorter of the two lists (faithful to the bounds-checked loop of
all_in_one-paladin.py lines 156-159, and to paladin.py lines 96-98 on the
only lists it is called with, those of length 20). -/
def publishAux : List String → List (Option ℚ) → List (String × ℚ)
  | [], _ => []
  | _ :: _, [] => []
  | s :: ss, v :: vs =>
    match v with
    | some q => (mqttTopic s, q) :: publishAux ss vs
    | none => publishAux ss vs

/-- Publish calls made by main for one decoded frame. -/
def publishStep (values : List (Option ℚ)) : List (String × ℚ) :=
  publishAux SENSOR_NAMES values

/-- Publish calls resulting from one nonempty UART response in main:
parse it, and publish the non-None slots only when a frame was produced. -/
def cyclePublishes (response : String) : List (String × ℚ) :=
  match parse_uart_data response with
  | some vs => publishStep vs
  | none => []

lemma tokens_length_map (data : String) :
    ((tokens data).map parseToken).length = (tokens data).length :=
  List.length_map _ _

lemma parse_uart_data_eq_some (data : String)
    (h : (tokens data).length = 20) :
    parse_uart_data data = some ((tokens data).map parseToken) := by
  unfold parse_uart_data
  simp [tokens_length_map, h]

lemma parse_uart_data_eq_none (data : String)
    (h : (tokens data).length ≠ 20) :
    parse_uart_data data = none := by
  unfold parse_uart_data
  simp [tokens_length_map, h]

/-- C2: for every input line whose comma-separated token count is not 20,
decode fails (no frame is produced) and zero publish calls occur for that
cycle. -/
theorem C2_bad_length_no_publish (data : String)
    (h : (tokens data).length ≠ 20) :
    parse_uart_data data = none ∧ cyclePublishes data = [] := by
  refine ⟨parse_uart_data_eq_none data h, ?_⟩
  unfold cyclePublishes
  rw [parse_uart_data_eq_none data h]

/-- Witness for C2 at the concrete three-token line. -/
theorem C2_bad_length_no_publish_witness :
    (tokens "1,2,3").length ≠ 20 ∧
      (parse_uart_data "1,2,3" = none ∧ cyclePublishes "1,2,3" = []) :=
  ⟨by decide, C2_bad_length_no_publish "1,2,3" (by decide)⟩

/-- C3: for every line of exactly 20 comma-separated tokens, each numeric
under the digit-after-removing-one-point rule, decode produces a frame of
length 20 in which every slot is populated with the parsed decimal value
of its token. -/
theorem C3_all_numeric_full_frame (data : String)
    (hlen : (tokens data).length = 20)
    (hnum : ∀ t ∈ tokens data, pyIsDigit (removeFirstDot t) = true) :
    parse_uart_data data
        = some ((tokens data).map (fun t => some (parseDecimal t))) ∧
      ((tokens data).map (fun t => some (parseDecimal t))).length = 20 ∧
      ∀ v ∈ (tokens data).map (fun t => some (parseDecimal t)), v ≠ none := by
  have hmap : (tokens data).map parseToken
      = (tokens data).map (fun t => some (parseDecimal t)) := by
    refine List.map_congr_left ?_
    intro t ht
    unfold parseToken
    rw [hnum t ht]
    simp
  refine ⟨?_, ?_, ?_⟩
  · rw [parse_uart_data_eq_some data hlen, hmap]
  · rw [List.length_map]; exact hlen
  · intro v hv
    rcases List.mem_map.mp hv with ⟨t, _, rfl⟩
    simp

/-- Witness for C3 at a concrete all-numeric 20-token line. -/
theorem C3_all_numeric_full_frame_witness :
    (tokens "1,2,3,4,5,6,7,8,9,10,11,12,13,14,15,16,17,18,19,20.5").length = 20 ∧
      (∀ t ∈ tokens "1,2,3,4,5,6,7,8,9,10,11,12,13,14,15,16,17,18,19,20.5",
          pyIsDigit (removeFirstDot t) = true) ∧
      parse_uart_data "1,2,3,4,5,6,7,8,9,10,11,12,13,14,15,16,17,18,19,20.5"
        = some ((tokens "1,2,3,4,5,6,7,8,9,10,11,12,13,14,15,16,17,18,19,20.5").map
            (fun t => some (parseDecimal t))) :=
  ⟨by decide, by decide,
    (C3_all_numeric_full_frame
      "1,2,3,4,5,6,7,8,9,10,11,12,13,14,15,16,17,18,19,20.5"
      (by decide) (by decide)).1⟩

/-- C4: for every line of exactly 20 tokens, a token that fails numeric
conversion never fails the whole decode: a frame of length 20 is still
produced, that token's slot is empty, and every slot whose own token
converts is not empty. -/
theorem C4_bad_token_only_its_slot (data : String)
    (hlen : (tokens data).length = 20)
    (i : Nat) (t : List Char)
    (ht : (tokens data).get? i = some t)
    (hfail : parseToken t = none) :
    ∃ frame, parse_uart_data data = some frame ∧ frame.length = 20 ∧
      frame.get? i = some none ∧
      ∀ j u, (tokens data).get? j = some u → parseToken u ≠ none →
        frame.get? j ≠ some none := by
  refine ⟨(tokens data).map parseToken, parse_uart_data_eq_some data hlen, ?_, ?_, ?_⟩
  · rw [List.length_map]; exact hlen
  · rw [List.get?_map, ht]
    simp [hfail]
  · intro j u hu hok hcontra
    rw [List.get?_map, hu] at hcontra
    simp at hcontra
    exact hok hcontra

/-- Witness for C4 at a concrete line whose first token is non-numeric. -/
theorem C4_bad_token_only_its_slot_witness :
    (tokens "x,2,3,4,5,6,7,8,9,10,11,12,13,14,15,16,17,18,19,20").length = 20 ∧
      (tokens "x,2,3,4,5,6,7,8,9,10,11,12,13,14,15,16,17,18,19,20").get? 0
        = some ['x'] ∧
      parseToken ['x'] = none ∧
      ∃ frame,
        parse_uart_data "x,2,3,4,5,6,7,8,9,10,11,12,13,14,15,16,17,18,19,20"
          = some frame ∧ frame.length = 20 ∧ frame.get? 0 = some none ∧
        ∀ j u,
          (tokens "x,2,3,4,5,6,7,8,9,10,11,12,13,14,15,16,17,18,19,20").get? j
            = some u → parseToken u ≠ none → frame.get? j ≠ some none :=
  ⟨by decide, by decide, by decide,
    C4_bad_token_only_its_slot "x,2,3,4,5,6,7,8,9,10,11,12,13,14,15,16,17,18,19,20"
      (by decide) 0 ['x'] (by decide) (by decide)⟩

lemma parse_uart_data_some_inv (data : String) (frame : List (Option ℚ))
    (h : parse_uart_data data = some frame) :
    (tokens data).length = 20 ∧ frame = (tokens data).map parseToken := by
  by_cases hl : (tokens data).length = 20
  · rw [parse_uart_data_eq_some data hl] at h
    exact ⟨hl, (Option.some.inj h).symm⟩
  · rw [parse_uart_data_eq_none data hl] at h
    cases h

lemma nodup_get?_ne {α : Type} : ∀ (l : List α), l.Nodup →
    ∀ i j (a b : α), i ≠ j → l.get? i = some a → l.get? j = some b → a ≠ b := by
  intro l
  induction l with
  | nil =>
    intro _ i j a b _ ha _
    simp at ha
  | cons x xs ih =>
    intro hn i j a b hij ha hb
    rw [List.nodup_cons] at hn
    cases i with
    | zero =>
      cases j with
      | zero => exact absurd rfl hij
      | succ j2 =>
        have hax : x = a := by simpa using ha
        have hbmem : b ∈ xs := List.get?_mem (by simpa using hb)
        intro hab
        exact hn.1 (by rw [hax, hab]; exact hbmem)
    | succ i2 =>
      cases j with
      | zero =>
        have hbx : x = b := by simpa using hb
        have hamem : a ∈ xs := List.get?_mem (by simpa using ha)
        intro hab
        exact hn.1 (by rw [hbx, ← hab]; exact hamem)
      | succ j2 =>
        exact ih hn.2 i2 j2 a b (by omega) (by simpa using ha) (by simpa using hb)

lemma countP_publishAux_zero (t : String) :
    ∀ (names : List String) (values : List (Option ℚ)),
    (∀ s ∈ names, mqttTopic s ≠ t) →
    (publishAux names values).countP (fun pr => pr.1 == t) = 0 := by
  intro names
  induction names with
  | nil =>
    intro values _
    simp [publishAux]
  | cons s0 ss ih =>
    intro values h
    cases values with
    | nil => simp [publishAux]
    | cons v vs =>
      have hne : mqttTopic s0 ≠ t := h s0 (List.mem_cons_self s0 ss)
      have htail : ∀ s ∈ ss, mqttTopic s ≠ t :=
        fun s hs => h s (List.mem_cons_of_mem s0 hs)
      cases v with
      | none => simpa [publishAux] using ih vs htail
      | some q =>
        rw [publishAux, List.countP_cons_of_neg]
        · exact ih vs htail
        · simpa using hne

lemma countP_publishAux_idx :
    ∀ (names : List String) (values : List (Option ℚ)) (i : Nat) (s : String),
    names.get? i = some s →
    (∀ j s2, j ≠ i → names.get? j = some s2 → mqttTopic s2 ≠ mqttTopic s) →
    (publishAux names values).countP (fun pr => pr.1 == mqttTopic s)
      = match values.get? i with
        | some (some _) => 1
        | _ => 0 := by
  intro names
  induction names with
  | nil =>
    intro values i s hs _
    simp at hs
  | cons s0 ss ih =>
    intro values i s hs hdiff
    cases values with
    | nil =>
      simp [publishAux]
    | cons v vs =>
      cases i with
      | zero =>
        have hs0 : s0 = s := by simpa using hs
        have htail : ∀ s2 ∈ ss, mqttTopic s2 ≠ mqttTopic s := by
          intro s2 hmem
          rcases List.get?_of_mem hmem with ⟨j, hj⟩
          exact hdiff (j + 1) s2 (by omega) (by simpa using hj)
        cases v with
        | none =>
          simpa [publishAux] using countP_publishAux_zero (mqttTopic s) ss vs htail
        | some q =>
          rw [publishAux, List.countP_cons_of_pos]
          · rw [countP_publishAux_zero (mqttTopic s) ss vs htail]
            rfl
          · simp [hs0]
      | succ k =>
        have hk : ss.get? k = some s := by simpa using hs
        have hne : mqttTopic s0 ≠ mqttTopic s :=
          hdiff 0 s0 (by omega) (by simp)
        have htail : ∀ j s2, j ≠ k → ss.get? j = some s2 →
            mqttTopic s2 ≠ mqttTopic s := by
          intro j s2 hj hjget
          exact hdiff (j + 1) s2 (by omega) (by simpa using hjget)
        cases v with
        | none => simpa [publishAux] using ih vs k s hk htail
        | some q =>
          rw [publishAux, List.countP_cons_of_neg]
          · simpa using ih vs k s hk htail
          · simpa using hne

lemma mem_publishAux :
    ∀ (names : List String) (values : List (Option ℚ)) (i : Nat) (s : String) (q : ℚ),
    names.get? i = some s → values.get? i = some (some q) →
    (mqttTopic s, q) ∈ publishAux names values := by
  intro names
  induction names with
  | nil =>
    intro values i s q hs _
    simp at hs
  | cons s0 ss ih =>
    intro values i s q hs hv
    cases values with
    | nil => simp at hv
    | cons v vs =>
      cases i with
      | zero =>
        have hs0 : s0 = s := by simpa using hs
        have hv0 : v = some q := by simpa using hv
        subst hs0; subst hv0
        simp [publishAux]
      | succ k =>
        have hk : ss.get? k = some s := by simpa using hs
        have hvk : vs.get? k = some (some q) := by simpa using hv
        cases v with
        | none => simpa [publishAux] using ih vs k s q hk hvk
        | some q2 =>
          rw [publishAux]
          exact List.mem_cons_of_mem _ (ih vs k s q hk hvk)

lemma topics_nodup : (SENSOR_NAMES.map mqttTopic).Nodup := by decide

lemma sensor_topic_ne (i : Nat) (s : String) (hs : SENSOR_NAMES.get? i = some s) :
    ∀ j s2, j ≠ i → SENSOR_NAMES.get? j = some s2 → mqttTopic s2 ≠ mqttTopic s := by
  intro j s2 hj hjget
  refine nodup_get?_ne (SENSOR_NAMES.map mqttTopic) topics_nodup j i
    (mqttTopic s2) (mqttTopic s) hj ?_ ?_
  · rw [List.get?_map, hjget]; rfl
  · rw [List.get?_map, hs]; rfl

/-- What main guarantees for a decoded frame: the frame has 20 slots; a
slot whose token is non-numeric is empty and its topic is never published;
a slot whose token is numeric holds the parsed value and its topic is
published exactly once, with that value. -/
def framePublishPost (data : String) (frame : List (Option ℚ)) : Prop :=
  frame.length = 20 ∧
  ∀ i t s, (tokens data).get? i = some t → SENSOR_NAMES.get? i = some s →
    (pyIsDigit (removeFirstDot t) = false →
      frame.get? i = some none ∧
      (publishStep frame).countP (fun pr => pr.1 == mqttTopic s) = 0) ∧
    (pyIsDigit (removeFirstDot t) = true →
      frame.get? i = some (some (parseDecimal t)) ∧
      (publishStep frame).countP (fun pr => pr.1 == mqttTopic s) = 1 ∧
      (mqttTopic s, parseDecimal t) ∈ publishStep frame)

/-- C1: for every decoded frame of exactly 20 slots, every slot with a
non-numeric token is empty and its topic receives no publish call, while
every slot with a numeric token is published exactly once to its topic
with its parsed value. -/
theorem C1_slot_publish_discipline (data : String) (frame : List (Option ℚ))
    (h : parse_uart_data data = some frame) :
    framePublishPost data frame := by
  obtain ⟨hlen, hframe⟩ := parse_uart_data_some_inv data frame h
  subst hframe
  constructor
  · rw [List.length_map]; exact hlen
  · intro i t s ht hs
    have hslot : ((tokens data).map parseToken).get? i = some (parseToken t) := by
      rw [List.get?_map, ht]; rfl
    constructor
    · intro hbad
      have hnone : parseToken t = none := by simp [parseToken, hbad]
      refine ⟨by rw [hslot, hnone], ?_⟩
      rw [publishStep,
        countP_publishAux_idx SENSOR_NAMES _ i s hs (sensor_topic_ne i s hs),
        hslot, hnone]
    · intro hgood
      have hsome : parseToken t = some (parseDecimal t) := by
        simp [parseToken, hgood]
      refine ⟨by rw [hslot, hsome], ?_, ?_⟩
      · rw [publishStep,
          countP_publishAux_idx SENSOR_NAMES _ i s hs (sensor_topic_ne i s hs),
          hslot, hsome]
      · exact mem_publishAux SENSOR_NAMES _ i s (parseDecimal t) hs
          (by rw [hslot, hsome])

/-- Witness for C1 at a concrete line whose first token is non-numeric and
whose other tokens are numeric. -/
theorem C1_slot_publish_discipline_witness :
    parse_uart_data "x,2,3,4,5,6,7,8,9,10,11,12,13,14,15,16,17,18,19,20"
        = some ((tokens "x,2,3,4,5,6,7,8,9,10,11,12,13,14,15,16,17,18,19,20").map
            parseToken) ∧
      framePublishPost "x,2,3,4,5,6,7,8,9,10,11,12,13,14,15,16,17,18,19,20"
        ((tokens "x,2,3,4,5,6,7,8,9,10,11,12,13,14,15,16,17,18,19,20").map
          parseToken) :=
  ⟨by decide,
    C1_slot_publish_discipline "x,2,3,4,5,6,7,8,9,10,11,12,13,14,15,16,17,18,19,20"
      _ (by decide)⟩

/-- The end-to-end test line of the specification. Note that it contains
two empty tokens, at indices 2 and 11, not one. -/
def endToEndLine : String :=
  "100,200,,21.5,3.2,18.0,25.0,0,0,0,0,,5,1,1,0,0,1,0,1700000000"

/-- True when slot i of the frame exists and holds a value. -/
def slotPopulated (frame : List (Option ℚ)) (i : Nat) : Bool :=
  match frame.get? i with
  | some (some _) => true
  | _ => false

/-- C5 counterexample: on the end-to-end line the decoder leaves slot 11
(sensor_11) empty as well, because the line has a second empty token
there, so only 18 slots are populated and only 18 publish calls are made,
not the 19 the claim states. -/
theorem C5_counterexample :
    parse_uart_data endToEndLine
        = some ((tokens endToEndLine).map parseToken) ∧
      slotPopulated ((tokens endToEndLine).map parseToken) 11 = false ∧
      (cyclePublishes endToEndLine).length = 18 :=
  ⟨rfl, rfl, rfl⟩

/-- C5 amended: the end-to-end line decodes to a frame with slots 2
(sensor_2) and 11 (sensor_11) empty and the other 18 slots populated, and
the publish step makes exactly 18 publish calls, none of them to the
topics of sensor_2 or sensor_11. -/
theorem C5_end_to_end_amended :
    parse_uart_data endToEndLine
        = some ((tokens endToEndLine).map parseToken) ∧
      ((tokens endToEndLine).map parseToken).get? 2 = some none ∧
      ((tokens endToEndLine).map parseToken).get? 11 = some none ∧
      (∀ i < 20, i ≠ 2 → i ≠ 11 →
        slotPopulated ((tokens endToEndLine).map parseToken) i = true) ∧
      (cyclePublishes endToEndLine).length = 18 ∧
      ∀ p ∈ cyclePublishes endToEndLine,
        p.1 ≠ mqttTopic "sensor_2" ∧ p.1 ≠ mqttTopic "sensor_11" :=
  ⟨rfl, rfl, rfl, by decide, rfl, by decide⟩

/-- Seconds since local midnight, from send_time_to_serial of
all_in_one-paladin.py lines 36-37. -/
def secondsToday (hour minute second : Nat) : Nat :=
  hour * 3600 + minute * 60 + second

/-- The time-sync payload of send_time_to_serial: the letter T followed by
the decimal seconds since midnight. -/
def sendTimePayload (hour minute second : Nat) : String :=
  "T" ++ toString (secondsToday hour minute second)

/-- C6: for every wall-clock time the time-sync payload is T followed by
the decimal of hour*3600 + minute*60 + second; in particular at 14:05:09
it is exactly T50709. -/
theorem C6_time_sync_payload :
    (∀ hour minute second : Nat,
      sendTimePayload hour minute second
        = "T" ++ Nat.repr (hour * 3600 + minute * 60 + second)) ∧
      sendTimePayload 14 5 9 = "T50709" :=
  ⟨fun _ _ _ => rfl, by decide⟩

/-- Python substring containment, needle in haystack, over character lists. -/
def isSub (needle : List Char) : List Char → Bool
  | [] => needle.isEmpty
  | c :: rest => needle.isPrefixOf (c :: rest) || isSub needle rest

/-- Python needle in haystack on strings. -/
def containsSub (needle hay : String) : Bool :=
  isSub needle.toList hay.toList

/-- Python str.title at the ASCII level: the first letter of every
alphabetic run is uppercased, the rest lowercased; the flag records
whether the previous character was alphabetic. -/
def titleAux : Bool → List Char → List Char
  | _, [] => []
  | prevAlpha, c :: rest =>
    (if c.isAlpha then (if prevAlpha then c.toLower else c.toUpper) else c)
      :: titleAux c.isAlpha rest

/-- Python s.title(). -/
def pyTitle (s : String) : String :=
  (titleAux false s.toList).asString

/-- Python sensor.replace(underscore, space): replace every underscore by
a space. -/
def pyReplaceUnderscore (s : String) : String :=
  (s.toList.map (fun c => if c = '_' then ' ' else c)).asString

/-- The constant device block of both discovery builders. -/
structure DeviceInfo where
  identifiers : List String
  name : String
  manufacturer : String
  model : String
deriving DecidableEq

/-- One discovery payload: the fields of the JSON dictionary built by
publish_discovery_messages; a None unit or class is the absence of a
unit or class hint. -/
structure DiscoveryPayload where
  name : String
  state_topic : String
  unique_id : String
  device : DeviceInfo
  unit_of_measurement : Option String
  device_class : Option String
  state_class : String
deriving DecidableEq

def paladinDevice : DeviceInfo :=
  { identifiers := ["paladin_device"], name := "Paladin Energy System",
    manufacturer := "Paladin", model := "Custom UART Sensor" }

/-- Topic of the discovery publish for one sensor, identical in both
scripts. -/
def discoveryTopic (sensor : String) : String :=
  "homeassistant/sensor/paladin_" ++ sensor ++ "/config"

/-- The discovery payload built by publish_discovery_messages of
paladin.py lines 44-63: only the watts rule sets a unit and class. -/
def discoveryPayloadBasic (sensor : String) : DiscoveryPayload :=
  { name := "Paladin " ++ pyTitle (pyReplaceUnderscore sensor),
    state_topic := mqttTopic sensor,
    unique_id := "paladin_" ++ sensor,
    device := paladinDevice,
    unit_of_measurement := if containsSub "watts" sensor then some "W" else none,
    device_class := if containsSub "watts" sensor then some "power" else none,
    state_class := "measurement" }

/-- The discovery payload built by publish_discovery_messages of
all_in_one-paladin.py lines 79-106: after the watts rule, a temp-named
sensor gets the Celsius unit and temperature class, and a time_hack-named
sensor gets its unit and class cleared. -/
def discoveryPayloadAllInOne (sensor : String) : DiscoveryPayload :=
  let p := discoveryPayloadBasic sensor
  if containsSub "temp" sensor then
    { p with unit_of_measurement := some "°C", device_class := some "temperature" }
  else if containsSub "time_hack" sensor then
    { p with unit_of_measurement := none, device_class := none }
  else p

/-- The claimed shape of a discovery payload for one sensor name: the four
mandatory fields, a power hint exactly when the name contains watts, a
temperature hint exactly when the name contains temp, and no hint
otherwise. -/
abbrev discoveryHintSpec (pay : DiscoveryPayload) (sensor : String) : Prop :=
  pay.name = "Paladin " ++ pyTitle (pyReplaceUnderscore sensor) ∧
  pay.state_topic = mqttTopic sensor ∧
  pay.unique_id = "paladin_" ++ sensor ∧
  pay.device = paladinDevice ∧
  ((pay.unit_of_measurement = some "W" ∧ pay.device_class = some "power") ↔
    containsSub "watts" sensor = true) ∧
  ((pay.unit_of_measurement = some "°C" ∧ pay.device_class = some "temperature") ↔
    containsSub "temp" sensor = true) ∧
  (containsSub "watts" sensor = false → containsSub "temp" sensor = false →
    pay.unit_of_measurement = none ∧ pay.device_class = none)

/-- The shape the basic builder of paladin.py actually produces: the same
mandatory fields and power rule, but never a temperature hint; any sensor
that is not watts-named carries no unit or class hint at all. -/
abbrev discoveryHintSpecBasic (pay : DiscoveryPayload) (sensor : String) : Prop :=
  pay.name = "Paladin " ++ pyTitle (pyReplaceUnderscore sensor) ∧
  pay.state_topic = mqttTopic sensor ∧
  pay.unique_id = "paladin_" ++ sensor ∧
  pay.device = paladinDevice ∧
  ((pay.unit_of_measurement = some "W" ∧ pay.device_class = some "power") ↔
    containsSub "watts" sensor = true) ∧
  (containsSub "watts" sensor = false →
    pay.unit_of_measurement = none ∧ pay.device_class = none)

/-- C7 counterexample: in paladin.py the discovery payload of water_temp,
a schema slot whose name contains temp, carries no unit or class hint at
all, against the claimed temperature rule. -/
theorem C7_counterexample :
    "water_temp" ∈ SENSOR_NAMES ∧
      containsSub "temp" "water_temp" = true ∧
      (discoveryPayloadBasic "water_temp").unit_of_measurement = none ∧
      (discoveryPayloadBasic "water_temp").device_class = none := by decide

/-- C7 amended: for every schema slot, the all_in_one-paladin.py
discovery payload carries a power hint exactly when the name contains
watts, a temperature hint exactly when the name contains temp, and no
hint otherwise, always with the display name, state topic, unique
identifier and device block; the paladin.py payload carries the same
mandatory fields and power rule but never a temperature hint, leaving
temp-named slots without any unit or class hint. -/
theorem C7_discovery_hints_amended :
    ∀ sensor ∈ SENSOR_NAMES,
      discoveryHintSpec (discoveryPayloadAllInOne sensor) sensor ∧
      discoveryHintSpecBasic (discoveryPayloadBasic sensor) sensor := by decide

/-- Witness for C7 at the water_temp slot. -/
theorem C7_discovery_hints_amended_witness :
    "water_temp" ∈ SENSOR_NAMES ∧
      (discoveryHintSpec (discoveryPayloadAllInOne "water_temp") "water_temp" ∧
        discoveryHintSpecBasic (discoveryPayloadBasic "water_temp") "water_temp") :=
  ⟨by decide, C7_discovery_hints_amended "water_temp" (by decide)⟩

/-- Python s.strip() on strings, as used on the readline result. -/
def pyStripString (s : String) : String :=
  (pyStrip s.toList).asString

/-- Outcome of one requestFrame attempt, as seen by the main loop of
all_in_one-paladin.py: either the write-settle-readline sequence returns
a (possibly empty) decoded line, or it raises serial.SerialException. -/
inductive FrameResult where
  | ok (raw : String)
  | fault
deriving DecidableEq

/-- The environment of one loop iteration: the clock value read by
time.time(), the transport behaviour of the requestFrame attempt, and
whether reopening the serial port would succeed if attempted. -/
structure CycleEnv where
  now : Int
  frameResult : FrameResult
  reopenOk : Bool
deriving DecidableEq

/-- The loop-carried state of main: the last_time_sent variable. -/
structure LoopState where
  lastTimeSent : Int
deriving DecidableEq

/-- Observable outcome of one loop iteration. -/
structure CycleOutcome where
  sentTime : Bool
  publishes : List (String × ℚ)
  reopenAttempts : Nat
  fatal : Bool
deriving DecidableEq

/-- The hourly time-send branch of main, all_in_one-paladin.py lines
141-145: when 3600 seconds have elapsed since last_time_sent, send the
time and set last_time_sent to the current clock value. -/
def timeSyncStep (st : LoopState) (now : Int) : LoopState × Bool :=
  if now - st.lastTimeSent ≥ 3600 then (⟨now⟩, true) else (st, false)

/-- One iteration of the while loop of all_in_one-paladin.py lines
138-186. The time-send branch runs first. Then requestFrame: on a
response the loop publishes the decoded slots of the stripped line when
it is nonempty; on serial.SerialException the handler of lines 166-176
closes the port and makes exactly one reopen attempt, publishing
nothing, and a failed reopen is fatal (break). The handler touches no
other loop state. -/
def runCycle (st : LoopState) (env : CycleEnv) : LoopState × CycleOutcome :=
  let ts := timeSyncStep st env.now
  match env.frameResult with
  | FrameResult.ok raw =>
    let response := pyStripString raw
    (ts.1, ⟨ts.2, if response = "" then [] else cyclePublishes response, 0, false⟩)
  | FrameResult.fault =>
    (ts.1, ⟨ts.2, [], 1, !env.reopenOk⟩)

/-- The while loop: run iterations against the environment script until
it is exhausted or an iteration is fatal; a fatal iteration is the last
one recorded and nothing runs after it. -/
def runLoop (st : LoopState) : List CycleEnv → List CycleOutcome
  | [] => []
  | env :: rest =>
    let step := runCycle st env
    if step.2.fatal then [step.2] else step.2 :: runLoop step.1 rest

/-- The initialisation of last_time_sent in main, line 135: one hour in
the past so that the first check fires. -/
def initState (startTime : Int) : LoopState :=
  ⟨startTime - 3600⟩

/-- What the fault handler guarantees: exactly one reopen attempt is
made; on a successful reopen the loop continues with the remaining
cycles; on a failed reopen the loop ends with this cycle and no further
cycle runs. -/
def faultHandlingPost (st : LoopState) (env : CycleEnv) (rest : List CycleEnv) : Prop :=
  (runCycle st env).2.reopenAttempts = 1 ∧
  (env.reopenOk = true →
    runLoop st (env :: rest)
      = (runCycle st env).2 :: runLoop (runCycle st env).1 rest) ∧
  (env.reopenOk = false → runLoop st (env :: rest) = [(runCycle st env).2])

/-- One iteration of the while loop of paladin.py lines 86-108. There is
no time-send branch. Any exception of the cycle, a serial fault
included, reaches the bare except handler of lines 105-106, which only
logs: no close, no reopen attempt, never fatal; the loop sleeps and
carries on. The clock and the reopen-outcome fields of the environment
are never read. -/
def runCycleBasic (env : CycleEnv) : CycleOutcome :=
  match env.frameResult with
  | FrameResult.ok raw =>
    let response := pyStripString raw
    ⟨false, if response = "" then [] else cyclePublishes response, 0, false⟩
  | FrameResult.fault => ⟨false, [], 0, false⟩

/-- The while loop of paladin.py: no iteration is ever fatal, so every
scripted cycle runs. -/
def runLoopBasic : List CycleEnv → List CycleOutcome
  | [] => []
  | env :: rest => runCycleBasic env :: runLoopBasic rest

/-- C8 counterexample: in the bridge loop of paladin.py a transport
fault is met by the bare except handler, which makes zero
close-then-reopen attempts, is never fatal even though a reopen would
fail, and the loop still runs the following cycle. -/
theorem C8_counterexample :
    (CycleEnv.mk 0 FrameResult.fault false).frameResult = FrameResult.fault ∧
      (runCycleBasic (CycleEnv.mk 0 FrameResult.fault false)).reopenAttempts = 0 ∧
      (runCycleBasic (CycleEnv.mk 0 FrameResult.fault false)).fatal = false ∧
      (runLoopBasic [CycleEnv.mk 0 FrameResult.fault false,
        CycleEnv.mk 30 (FrameResult.ok "") true]).length = 2 := by decide

/-- What the fault path of the paladin.py loop guarantees: no reopen
attempt, no publishes, never fatal, and the loop continues with the
remaining cycles unconditionally. -/
def basicFaultPost (env : CycleEnv) (rest : List CycleEnv) : Prop :=
  (runCycleBasic env).reopenAttempts = 0 ∧
  (runCycleBasic env).publishes = [] ∧
  (runCycleBasic env).fatal = false ∧
  runLoopBasic (env :: rest) = runCycleBasic env :: runLoopBasic rest

/-- C8 amended: in the all_in_one-paladin.py bridge loop, a transport
fault during a requestFrame cycle triggers exactly one immediate
close-then-reopen attempt, a successful reopen lets the loop continue
and a failed reopen terminates it with no further cycles; in the
paladin.py bridge loop, a transport fault triggers no reopen attempt
and is never fatal: the loop logs, publishes nothing, and continues
with the next cycle regardless. -/
theorem C8_fault_handling_amended (st : LoopState) (env : CycleEnv)
    (rest : List CycleEnv) (hfault : env.frameResult = FrameResult.fault) :
    faultHandlingPost st env rest ∧ basicFaultPost env rest := by
  rcases env with ⟨now, fr, ro⟩
  cases hfault
  constructor
  · refine ⟨rfl, ?_, ?_⟩
    · intro hro
      cases hro
      simp [runLoop, runCycle]
    · intro hro
      cases hro
      simp [runLoop, runCycle]
  · exact ⟨rfl, rfl, rfl, rfl⟩

/-- Witness for C8: a faulting cycle whose reopen would fail, followed
by a pending cycle; the all_in_one loop stops there while the basic
loop carries on. -/
theorem C8_fault_handling_amended_witness :
    (CycleEnv.mk 0 FrameResult.fault false).frameResult = FrameResult.fault ∧
      (faultHandlingPost ⟨0⟩ (CycleEnv.mk 0 FrameResult.fault false)
          [CycleEnv.mk 30 (FrameResult.ok "") true] ∧
        basicFaultPost (CycleEnv.mk 0 FrameResult.fault false)
          [CycleEnv.mk 30 (FrameResult.ok "") true]) :=
  ⟨rfl, C8_fault_handling_amended ⟨0⟩ (CycleEnv.mk 0 FrameResult.fault false)
    [CycleEnv.mk 30 (FrameResult.ok "") true] rfl⟩

/-- What a fault with successful reopen guarantees: the fault handling
leaves last_time_sent exactly as the time-send branch of the same cycle
left it, the faulted cycle publishes nothing, and the loop resumes with
the remaining cycles. -/
def faultRecoveryPost (st : LoopState) (env : CycleEnv) (rest : List CycleEnv) : Prop :=
  (runCycle st env).1.lastTimeSent = (timeSyncStep st env.now).1.lastTimeSent ∧
  (runCycle st env).2.publishes = [] ∧
  runLoop st (env :: rest)
    = (runCycle st env).2 :: runLoop (runCycle st env).1 rest

/-- C9: for every cycle in which a transport fault occurs and the reopen
succeeds, the fault-and-reopen handling leaves the time-sync timer state
unchanged, no publish call is made with data from the failed cycle, and
polling resumes with the next cycle. -/
theorem C9_fault_preserves_timer (st : LoopState) (env : CycleEnv)
    (rest : List CycleEnv) (hfault : env.frameResult = FrameResult.fault)
    (hro : env.reopenOk = true) :
    faultRecoveryPost st env rest := by
  rcases env with ⟨now, fr, ro⟩
  cases hfault
  cases hro
  refine ⟨rfl, rfl, ?_⟩
  simp [runLoop, runCycle]

/-- Witness for C9: a faulting cycle with successful reopen whose
time-send branch fired, followed by an ordinary cycle that still runs. -/
theorem C9_fault_preserves_timer_witness :
    (CycleEnv.mk 5000 FrameResult.fault true).frameResult = FrameResult.fault ∧
      (CycleEnv.mk 5000 FrameResult.fault true).reopenOk = true ∧
      faultRecoveryPost ⟨0⟩ (CycleEnv.mk 5000 FrameResult.fault true)
        [CycleEnv.mk 5030 (FrameResult.ok "") true] :=
  ⟨rfl, rfl, C9_fault_preserves_timer ⟨0⟩ (CycleEnv.mk 5000 FrameResult.fault true)
    [CycleEnv.mk 5030 (FrameResult.ok "") true] rfl rfl⟩

/-- C10: the decoder is total: on every string it returns either no frame
at all, or a frame of exactly 20 slots, each of which is empty or a parsed
number; no list of any other length is ever returned. -/
theorem C10_decoder_total (data : String) :
    parse_uart_data data = none ∨
      ∃ frame, parse_uart_data data = some frame ∧ frame.length = 20 ∧
        ∀ v ∈ frame, v = none ∨ ∃ q : ℚ, v = some q := by
  by_cases h : (tokens data).length = 20
  · refine Or.inr ⟨(tokens data).map parseToken,
      parse_uart_data_eq_some data h, ?_, ?_⟩
    · rw [List.length_map]; exact h
    · intro v hv
      rcases v with _ | q
      · exact Or.inl rfl
      · exact Or.inr ⟨q, rfl⟩
  · exact Or.inl (parse_uart_data_eq_none data h)
